import Mathlib

/-!
# Animal API (`main.go`): request handlers over a document store

A shallow embedding of the sixteen HTTP handlers of `main.go`.

* Go `int` is the 64-bit two's-complement integer: values are `Int`s and the
  arithmetic the handlers perform wraps through `wrapInt64`.
* `bson.D`, `bson.M` and `fiber.Map` literals are key/value lists (`D`).
* What a handler reads from `*fiber.Ctx` (`c.Params`, `c.Query`, `c.QueryInt`,
  the result of `c.BodyParser`) is an argument of the handler.
* The database is a `World`: the three collections, the identifier generator,
  and a log of every operation the handlers issue to the store.
* A handler yields an `Outcome` (the response it wrote, or the error it
  returned to the framework without writing one) and the next `World`.
-/

namespace GoApi

/-! ## Go values -/

/-- Reduce an integer to the range of a 64-bit two's-complement Go `int`. -/
def wrapInt64 (x : Int) : Int := (x + 2 ^ 63) % 2 ^ 64 - 2 ^ 63

/-- Go `a - b` on `int`. -/
def intSub (a b : Int) : Int := wrapInt64 (a - b)

/-- Go `a * b` on `int`. -/
def intMul (a b : Int) : Int := wrapInt64 (a * b)

/-- The type `primitive.ObjectID` (`[12]byte`), held as the number its twelve
bytes spell in big-endian order. -/
structure ObjectID where
  val : Nat
deriving DecidableEq, Repr

/-- The constant `primitive.NilObjectID`: the zero value of `ObjectID`. -/
def NilObjectID : ObjectID := ⟨0⟩

/-- The method `ObjectID.IsZero`. -/
def ObjectID.IsZero (o : ObjectID) : Bool := o == NilObjectID

/-- A `float64`, carried as its bit pattern: the handlers never compute on it. -/
structure Float64 where
  bits : Nat
deriving DecidableEq, Repr

/-- A `time.Time`, carried as an instant: the handlers never compute on it. -/
structure Time where
  unixNano : Int
deriving DecidableEq, Repr

/-- A Go `error` value, as far as the handlers tell errors apart: they compare
with `mongo.ErrNoDocuments` and otherwise only test for `nil`. -/
inductive GoError where
  | ErrNoDocuments
  | other (msg : String)
deriving DecidableEq, Repr

/-- A dynamically typed value inside a BSON document, a `fiber.Map` or a
`map[string]interface{}`. -/
inductive Value where
  | null
  | str (s : String)
  | int (i : Int)
  | int64 (i : Int)
  | double (f : Float64)
  | bool (b : Bool)
  | oid (o : ObjectID)
  | time (t : Time)
  | arr (xs : List Value)
  | doc (kvs : List (String × Value))

/-- An ordered key/value document: `bson.D`, and the model of `bson.M` and
`fiber.Map` literals (whose keys are distinct in the source). -/
abbrev D := List (String × Value)

mutual
/-- Structural equality of values, as a Boolean test. -/
def Value.eqv : Value → Value → Bool
  | .null, .null => true
  | .str a, .str b => a == b
  | .int a, .int b => a == b
  | .int64 a, .int64 b => a == b
  | .double a, .double b => a == b
  | .bool a, .bool b => a == b
  | .oid a, .oid b => a == b
  | .time a, .time b => a == b
  | .arr a, .arr b => Value.eqvList a b
  | .doc a, .doc b => Value.eqvFields a b
  | _, _ => false
/-- Structural equality of arrays of values. -/
def Value.eqvList : List Value → List Value → Bool
  | [], [] => true
  | x :: xs, y :: ys => Value.eqv x y && Value.eqvList xs ys
  | _, _ => false
/-- Structural equality of documents. -/
def Value.eqvFields : List (String × Value) → List (String × Value) → Bool
  | [], [] => true
  | (k, x) :: xs, (l, y) :: ys => k == l && Value.eqv x y && Value.eqvFields xs ys
  | _, _ => false
end

/-! ## The record types of `main.go` -/

structure Location where
  Type_ : String
  Latitude : Float64
  Longitude : Float64
  Coordinates : Float64 × Float64
deriving DecidableEq, Repr

structure Species where
  ID : ObjectID
  SpeciesName : String
  Category : ObjectID
  Image : String
  Location : Location
deriving DecidableEq, Repr

structure Category where
  ID : ObjectID
  CategoryName : String
deriving DecidableEq, Repr

structure Animal where
  ID : ObjectID
  AnimalName : String
  Species : ObjectID
  Birthdate : Time
  Image : String
  Location : Location
deriving DecidableEq, Repr

/-! ## Query options and the aggregation pipeline -/

/-- The type `options.FindOptions`, restricted to the three options the handlers
set; `none` is an option that was never set. -/
structure FindOptions where
  Sort_ : Option D := none
  Skip : Option Int := none
  Limit : Option Int := none

/-- The call `options.Find()`. -/
def Find_ : FindOptions := {}

def FindOptions.SetSort (o : FindOptions) (sort : D) : FindOptions := { o with Sort_ := some sort }

def FindOptions.SetSkip (o : FindOptions) (i : Int) : FindOptions := { o with Skip := some i }

def FindOptions.SetLimit (o : FindOptions) (i : Int) : FindOptions := { o with Limit := some i }

/-- The type `mongo.Pipeline`: a sequence of stage documents. -/
abbrev Pipeline := List D

/-- Lines 142-151 of `getSpecies`: the local `sort` after the sorting block.
`sortBy` is `c.Query("sort_by")` and `orderQ` is `c.Query("order")`. -/
def getSpecies_sort (sortBy orderQ : String) : D :=
  let sort : D := []
  let order : Int := -1
  if sortBy ≠ "" then
    let order := if orderQ = "asc" then 1 else order
    sort ++ [(sortBy, Value.int order)]
  else sort

/-- Lines 153-159 of `getSpecies`: the local `skip` after the pagination block.
`page` is `c.QueryInt("page")` and `limit` is `c.QueryInt("limit")`. -/
def getSpecies_skip (page limit : Int) : Int :=
  let skip : Int := 0
  if page > 0 ∧ limit > 0 then intMul (intSub page 1) limit else skip

/-- Lines 161-168 of `getSpecies`: the `findOptions` handed to `Find`. The
conversions `int64(skip)` and `int64(limit)` keep the value of a 64-bit `int`. -/
def getSpecies_findOptions (sortBy orderQ : String) (page limit : Int) : FindOptions :=
  let sort := getSpecies_sort sortBy orderQ
  let skip := getSpecies_skip page limit
  let findOptions := Find_
  let findOptions := if sortBy ≠ "" then findOptions.SetSort sort else findOptions
  let findOptions :=
    if page > 0 ∧ limit > 0 then (findOptions.SetSkip skip).SetLimit limit else findOptions
  findOptions

/-- Lines 376-385 of `getCategories`: the local `sort`. -/
def getCategories_sort (sortBy orderQ : String) : D :=
  let sort : D := []
  let order : Int := -1
  if sortBy ≠ "" then
    let order := if orderQ = "asc" then 1 else order
    sort ++ [(sortBy, Value.int order)]
  else sort

/-- Lines 387-393 of `getCategories`: the local `skip`. -/
def getCategories_skip (page limit : Int) : Int :=
  let skip : Int := 0
  if page > 0 ∧ limit > 0 then intMul (intSub page 1) limit else skip

/-- Lines 395-402 of `getCategories`: the `findOptions` handed to `Find`. -/
def getCategories_findOptions (sortBy orderQ : String) (page limit : Int) : FindOptions :=
  let sort := getCategories_sort sortBy orderQ
  let skip := getCategories_skip page limit
  let findOptions := Find_
  let findOptions := if sortBy ≠ "" then findOptions.SetSort sort else findOptions
  let findOptions :=
    if page > 0 ∧ limit > 0 then (findOptions.SetSkip skip).SetLimit limit else findOptions
  findOptions

/-- Lines 520-529 of `getAnimals`: the local `sort`. -/
def getAnimals_sort (sortBy orderQ : String) : D :=
  let sort : D := []
  let order : Int := 1
  if sortBy ≠ "" then
    let order := if orderQ = "desc" then -1 else order
    sort ++ [(sortBy, Value.int order)]
  else sort

/-- Lines 531-537 of `getAnimals`: the local `skip`. -/
def getAnimals_skip (page limit : Int) : Int :=
  let skip : Int := 0
  if page > 0 ∧ limit > 0 then intMul (intSub page 1) limit else skip

/-- Lines 539-572 of `getAnimals`: the `pipeline` handed to `Aggregate`. -/
def getAnimals_pipeline (sortBy orderQ : String) (page limit : Int) : Pipeline :=
  let sort := getAnimals_sort sortBy orderQ
  let skip := getAnimals_skip page limit
  let pipeline : Pipeline := [
    [("$lookup", .doc [
      ("from", .str "species"),
      ("localField", .str "species"),
      ("foreignField", .str "_id"),
      ("as", .str "species")])],
    [("$unwind", .doc [
      ("path", .str "$species"),
      ("preserveNullAndEmptyArrays", .bool true)])],
    [("$lookup", .doc [
      ("from", .str "categories"),
      ("localField", .str "species.category"),
      ("foreignField", .str "_id"),
      ("as", .str "species.category")])],
    [("$unwind", .doc [
      ("path", .str "$species.category"),
      ("preserveNullAndEmptyArrays", .bool true)])]]
  let pipeline := if sort.length > 0 then pipeline ++ [[("$sort", .doc sort)]] else pipeline
  let pipeline :=
    if page > 0 ∧ limit > 0 then
      (pipeline ++ [[("$skip", .int skip)]]) ++ [[("$limit", .int64 limit)]]
    else pipeline
  pipeline

/-! ## Identifiers -/

/-- The value of one hexadecimal digit, as `encoding/hex` reads it. -/
def fromHexChar (c : Char) : Option Nat :=
  if '0' ≤ c ∧ c ≤ '9' then some (c.toNat - '0'.toNat)
  else if 'a' ≤ c ∧ c ≤ 'f' then some (c.toNat - 'a'.toNat + 10)
  else if 'A' ≤ c ∧ c ≤ 'F' then some (c.toNat - 'A'.toNat + 10)
  else none

/-- Read a list of hexadecimal digits as a number, most significant first. -/
def decodeHex : List Char → Nat → Option Nat
  | [], acc => some acc
  | c :: cs, acc =>
    match fromHexChar c with
    | some v => decodeHex cs (acc * 16 + v)
    | none => none

/-- The driver's `primitive.ObjectIDFromHex`: the string must be 24 bytes long
and every byte a hexadecimal digit. -/
def ObjectIDFromHex (s : String) : Except GoError ObjectID :=
  if s.utf8ByteSize ≠ 24 then
    .error (.other "the provided hex string is not a valid ObjectID")
  else
    match decodeHex s.data 0 with
    | some n => .ok ⟨n⟩
    | none => .error (.other "encoding/hex: invalid byte")

/-! ## Documents and records -/

/-- The BSON document of a `Location` (its `bson` tags). -/
def Location.toBSON (l : Location) : D :=
  [("type", .str l.Type_), ("latitude", .double l.Latitude), ("longitude", .double l.Longitude),
   ("coordinates", .arr [.double l.Coordinates.1, .double l.Coordinates.2])]

/-- The BSON document of a `Species`; `_id` carries `omitempty`. -/
def Species.toBSON (s : Species) : D :=
  (if s.ID.IsZero then [] else [("_id", Value.oid s.ID)]) ++
  [("species_name", .str s.SpeciesName), ("category", .oid s.Category), ("image", .str s.Image),
   ("location", .doc s.Location.toBSON)]

/-- The BSON document of a `Category`. -/
def Category.toBSON (c : Category) : D :=
  [("_id", .oid c.ID), ("category_name", .str c.CategoryName)]

/-- The BSON document of an `Animal`. -/
def Animal.toBSON (a : Animal) : D :=
  [("_id", .oid a.ID), ("animal_name", .str a.AnimalName), ("species", .oid a.Species),
   ("birthdate", .time a.Birthdate), ("image", .str a.Image), ("location", .doc a.Location.toBSON)]

/-! ## The store

The MongoDB driver and the database are outside `main.go`. This section is a
reference model of the driver calls the handlers make, as far as a handler can
observe them: point operations act on the collections, list queries are
answered by `World.answer`, and stored documents are decoded by the decoders
the `World` carries.
-/

/-- The three collections opened in `main`. -/
inductive Coll where
  | species
  | categories
  | animals
deriving DecidableEq, Repr

/-- One call of the driver, with the arguments the handler passed. -/
inductive StoreOp where
  | InsertOne (c : Coll) (document : D)
  | FindOne (c : Coll) (filter : D)
  | Find (c : Coll) (filter : D) (opts : FindOptions)
  | UpdateOne (c : Coll) (filter : D) (update : D)
  | DeleteOne (c : Coll) (filter : D)
  | Aggregate (c : Coll) (pipeline : Pipeline)

/-- What a `mongo.Cursor` delivers: the documents it yields, then the error
`cursor.Err()` reports once `Next` has returned false. -/
structure Cursor where
  batch : List D
  err : Option GoError

/-- The type `mongo.UpdateResult`. -/
structure UpdateResult where
  MatchedCount : Int
  ModifiedCount : Int
  UpsertedCount : Int
  UpsertedID : Option ObjectID
deriving DecidableEq, Repr

/-- The type `mongo.DeleteResult`. -/
structure DeleteResult where
  DeletedCount : Int
deriving DecidableEq, Repr

/-- Everything outside the handler: the contents of the three collections, a
store-level failure in force (`outage`, e.g. lost connectivity: every
operation then fails with that error and changes nothing), the state of the
identifier generator, the log of the operations issued so far, the store's
answer to a list query (`answer`; how the store sorts, skips, limits and joins
is not modelled), and what the driver's `Decode` makes of a stored document
for each record type (`decodeSpecies`, `decodeCategory`, `decodeAnimal`; the
BSON codec is not modelled, so every statement holds for any codec). -/
structure World where
  species : List D
  categories : List D
  animals : List D
  outage : Option GoError
  oidCounter : Nat
  log : List StoreOp
  answer : StoreOp → Cursor
  decodeSpecies : D → Except GoError Species
  decodeCategory : D → Except GoError Category
  decodeAnimal : D → Except GoError Animal

/-- The documents of a collection. -/
def World.coll (w : World) : Coll → List D
  | .species => w.species
  | .categories => w.categories
  | .animals => w.animals

/-- Replace the documents of a collection. -/
def World.setColl (w : World) (c : Coll) (docs : List D) : World :=
  match c with
  | .species => { w with species := docs }
  | .categories => { w with categories := docs }
  | .animals => { w with animals := docs }

/-- Record an operation issued to the store. -/
def World.record (w : World) (op : StoreOp) : World := { w with log := w.log ++ [op] }

/-- The driver's `primitive.NewObjectID`, as a counter: each call yields a
non-zero identifier that no earlier call yielded. -/
def NewObjectID (w : World) : ObjectID × World :=
  (⟨w.oidCounter + 1⟩, { w with oidCounter := w.oidCounter + 1 })

/-- Equality match of one filter entry against a document field; an absent
field matches only `null`. -/
def fieldMatches (operand : Value) (field : Option Value) : Bool :=
  match field with
  | some v => operand.eqv v
  | none => operand.eqv .null

/-- Whether a document satisfies a filter `bson.M` of equality conditions. -/
def matchesFilter (filter d : D) : Bool :=
  filter.all fun kv => fieldMatches kv.2 (d.lookup kv.1)

/-- Whether two documents carry the same `_id`. -/
def sameID (a b : D) : Bool :=
  match a.lookup "_id", b.lookup "_id" with
  | some x, some y => x.eqv y
  | _, _ => false

/-- The method `Collection.InsertOne`. A document without `_id` gets a generated
one; a document whose `_id` is already in the collection is refused
(duplicate key). -/
def InsertOne (c : Coll) (document : D) (w : World) : Except GoError Unit × World :=
  let w := w.record (.InsertOne c document)
  match w.outage with
  | some e => (.error e, w)
  | none =>
    let (document, w) :=
      match document.lookup "_id" with
      | some _ => (document, w)
      | none => let (id, w) := NewObjectID w; (("_id", Value.oid id) :: document, w)
    if (w.coll c).any (sameID document) then
      (.error (.other "E11000 duplicate key error"), w)
    else (.ok (), w.setColl c (w.coll c ++ [document]))

/-- The call `Collection.FindOne(ctx, filter)` followed by its `Decode`: the
first matching document, or `mongo.ErrNoDocuments`. -/
def FindOne (c : Coll) (filter : D) (w : World) : Except GoError D × World :=
  let w := w.record (.FindOne c filter)
  match w.outage with
  | some e => (.error e, w)
  | none =>
    match (w.coll c).find? (matchesFilter filter) with
    | some d => (.ok d, w)
    | none => (.error .ErrNoDocuments, w)

/-- The method `Collection.Find`. -/
def Find (c : Coll) (filter : D) (opts : FindOptions) (w : World) : Except GoError Cursor × World :=
  let w := w.record (.Find c filter opts)
  match w.outage with
  | some e => (.error e, w)
  | none => (.ok (w.answer (.Find c filter opts)), w)

/-- The method `Collection.Aggregate`. -/
def Aggregate (c : Coll) (pipeline : Pipeline) (w : World) : Except GoError Cursor × World :=
  let w := w.record (.Aggregate c pipeline)
  match w.outage with
  | some e => (.error e, w)
  | none => (.ok (w.answer (.Aggregate c pipeline)), w)

/-- Set one top-level field of a document, replacing it when present. -/
def setField (d : D) (k : String) (v : Value) : D :=
  if d.any (fun kv => kv.1 == k) then d.map (fun kv => if kv.1 == k then (k, v) else kv)
  else d ++ [(k, v)]

/-- Apply the operand of `$set` to a document, field by field. -/
def applySet (d : D) (fields : D) : D :=
  fields.foldl (fun acc kv => setField acc kv.1 kv.2) d

/-- Replace the first document that satisfies the filter. -/
def replaceFirst (filter : D) (f : D → D) : List D → List D
  | [] => []
  | d :: ds => if matchesFilter filter d then f d :: ds else d :: replaceFirst filter f ds

/-- Remove the first document that satisfies the filter. -/
def removeFirst (filter : D) : List D → List D
  | [] => []
  | d :: ds => if matchesFilter filter d then ds else d :: removeFirst filter ds

/-- The method `Collection.UpdateOne` for an update of the form
`{"$set": fields}` (no upsert): the store refuses any other update document;
with no matching document nothing changes and both counts are zero. -/
def UpdateOne (c : Coll) (filter update : D) (w : World) : Except GoError UpdateResult × World :=
  let w := w.record (.UpdateOne c filter update)
  match w.outage with
  | some e => (.error e, w)
  | none =>
    match update with
    | [("$set", .doc fields)] =>
      match (w.coll c).find? (matchesFilter filter) with
      | none => (.ok ⟨0, 0, 0, none⟩, w)
      | some d =>
        let modified : Int := if Value.eqvFields (applySet d fields) d then 0 else 1
        (.ok ⟨1, modified, 0, none⟩, w.setColl c (replaceFirst filter (applySet · fields) (w.coll c)))
    | _ => (.error (.other "invalid update document"), w)

/-- The method `Collection.DeleteOne`: removes the first matching document, if
there is one. -/
def DeleteOne (c : Coll) (filter : D) (w : World) : Except GoError DeleteResult × World :=
  let w := w.record (.DeleteOne c filter)
  match w.outage with
  | some e => (.error e, w)
  | none =>
    match (w.coll c).find? (matchesFilter filter) with
    | none => (.ok ⟨0⟩, w)
    | some _ => (.ok ⟨1⟩, w.setColl c (removeFirst filter (w.coll c)))

/-! ## Responses -/

/-- The Go value a handler hands to `c.JSON`, or the text the framework sends. -/
inductive Body where
  | map (m : D)
  | species (s : Species)
  | speciesList (l : List Species)
  | category (c : Category)
  | categoryList (l : List Category)
  | animal (a : Animal)
  | documents (l : List D)
  | updateResult (r : UpdateResult)
  | text (s : String)

/-- How a handler ends: `response status body` when it wrote a response
(`c.Status(status).JSON(body)`; `c.JSON(body)` alone keeps the status 200), or
`err e` when it returned the error `e` to the framework and wrote nothing. -/
inductive Outcome where
  | response (status : Nat) (body : Body)
  | err (e : GoError)

/-- The body `fiber.Map{"error": msg}`. -/
def errorMap (msg : String) : Body := .map [("error", .str msg)]

/-- The `for cursor.Next(ctx)` loop of the list handlers: decode each document
in turn and stop at the first that fails. -/
def decodeLoop {α : Type} (decode : D → Except GoError α) : List D → List α → Except GoError (List α)
  | [], acc => .ok acc
  | d :: ds, acc =>
    match decode d with
    | .error e => .error e
    | .ok x => decodeLoop decode ds (acc ++ [x])

/-! ## Species handlers -/

/-- Handler `getSpecies` (`GET /api/species`); `sortBy`, `orderQ` are the query
strings `sort_by`, `order` and `page`, `limit` the results of `c.QueryInt`. -/
def getSpecies (sortBy orderQ : String) (page limit : Int) (w : World) : Outcome × World :=
  let findOptions := getSpecies_findOptions sortBy orderQ page limit
  match Find .species [] findOptions w with
  | (.error _, w) => (.response 500 (errorMap "Failed to fetch species"), w)
  | (.ok cursor, w) =>
    match decodeLoop w.decodeSpecies cursor.batch [] with
    | .error _ => (.response 500 (errorMap "Failed to decode species"), w)
    | .ok species =>
      match cursor.err with
      | some _ => (.response 500 (errorMap "Cursor error"), w)
      | none => (.response 200 (.speciesList species), w)

/-- Handler `createSpecies` (`POST /api/species`); `body` is what
`c.BodyParser(species)` made of the request body. -/
def createSpecies (body : Except GoError Species) (w : World) : Outcome × World :=
  match body with
  | .error err => (.err err, w)
  | .ok species =>
    if species.SpeciesName = "" then
      (.response 400 (errorMap "Species name is required"), w)
    else if species.Category.IsZero then
      (.response 400 (errorMap "Category ID is required"), w)
    else
      let (id, w) := NewObjectID w
      let species := { species with ID := id }
      match InsertOne .species species.toBSON w with
      | (.error err, w) => (.err err, w)
      | (.ok _, w) => (.response 201 (.species species), w)

/-- The update document `bson.M{"$set": updateData}`; a nil map is BSON null. -/
def setDocument (updateData : Option D) : D :=
  [("$set", match updateData with
    | some m => .doc m
    | none => .null)]

/-- Handler `updateSpecie` (`PUT /api/species/:id`); `id` is `c.Params("id")`
and `body` what `c.BodyParser(&updateData)` made of the request body (`none`
is the nil map a JSON `null` leaves). -/
def updateSpecie (id : String) (body : Except GoError (Option D)) (w : World) : Outcome × World :=
  match ObjectIDFromHex id with
  | .error _ => (.response 400 (errorMap "Invalid ID"), w)
  | .ok objID =>
    match body with
    | .error _ => (.response 400 (errorMap "Invalid request body"), w)
    | .ok updateData =>
      let update := setDocument updateData
      let filter : D := [("_id", .oid objID)]
      match UpdateOne .species filter update w with
      | (.error _, w) => (.response 500 (errorMap "Failed to update species"), w)
      | (.ok result, w) => (.response 200 (.updateResult result), w)

/-- Handler `getSpecie` (`GET /api/species/:id`). -/
def getSpecie (id : String) (w : World) : Outcome × World :=
  match ObjectIDFromHex id with
  | .error _ => (.response 400 (errorMap "Invalid ID"), w)
  | .ok objID =>
    let (found, w) := FindOne .species [("_id", .oid objID)] w
    match found >>= w.decodeSpecies with
    | .error err =>
      if err = .ErrNoDocuments then (.response 404 (errorMap "Species not found"), w)
      else (.response 500 (errorMap "Failed to retrieve species"), w)
    | .ok specie => (.response 200 (.species specie), w)

/-- Handler `getSpecieByName` (`GET /api/species/name/:species_name`). -/
def getSpecieByName (speciesName : String) (w : World) : Outcome × World :=
  let filter : D := [("species_name", .str speciesName)]
  let (found, w) := FindOne .species filter w
  match found >>= w.decodeSpecies with
  | .error err =>
    if err = .ErrNoDocuments then (.response 404 (errorMap "Species not found"), w)
    else (.response 500 (errorMap "Failed to fetch species"), w)
  | .ok specie => (.response 200 (.species specie), w)

/-- Handler `deleteSpecie` (`DELETE /api/species/:id`). -/
def deleteSpecie (id : String) (w : World) : Outcome × World :=
  match ObjectIDFromHex id with
  | .error _ => (.response 400 (errorMap "Invalid ID"), w)
  | .ok objID =>
    let filter : D := [("_id", .oid objID)]
    match DeleteOne .species filter w with
    | (.error _, w) => (.response 500 (errorMap "Failed to delete species"), w)
    | (.ok _, w) => (.response 200 (.map [("success", .bool true)]), w)

/-! ## Category handlers -/

/-- Handler `getCategory` (`GET /api/categories/:id`). -/
def getCategory (id : String) (w : World) : Outcome × World :=
  match ObjectIDFromHex id with
  | .error _ => (.response 400 (errorMap "Invalid ID"), w)
  | .ok objID =>
    let (found, w) := FindOne .categories [("_id", .oid objID)] w
    match found >>= w.decodeCategory with
    | .error err =>
      if err = .ErrNoDocuments then (.response 404 (errorMap "Category not found"), w)
      else (.response 500 (errorMap "Failed to retrieve category"), w)
    | .ok category => (.response 200 (.category category), w)

/-- Handler `getCategories` (`GET /api/categories`). -/
def getCategories (sortBy orderQ : String) (page limit : Int) (w : World) : Outcome × World :=
  let findOptions := getCategories_findOptions sortBy orderQ page limit
  match Find .categories [] findOptions w with
  | (.error _, w) => (.response 500 (errorMap "Failed to fetch categories"), w)
  | (.ok cursor, w) =>
    match decodeLoop w.decodeCategory cursor.batch [] with
    | .error _ => (.response 500 (errorMap "Failed to decode category"), w)
    | .ok categories =>
      match cursor.err with
      | some _ => (.response 500 (errorMap "Cursor error"), w)
      | none => (.response 200 (.categoryList categories), w)

/-- Handler `createCategory` (`POST /api/categories`). -/
def createCategory (body : Except GoError Category) (w : World) : Outcome × World :=
  match body with
  | .error _ => (.response 400 (errorMap "Invalid request body"), w)
  | .ok category =>
    if category.CategoryName = "" then
      (.response 400 (errorMap "Category name is required"), w)
    else
      let (id, w) := NewObjectID w
      let category := { category with ID := id }
      match InsertOne .categories category.toBSON w with
      | (.error _, w) => (.response 500 (errorMap "Failed to create category"), w)
      | (.ok _, w) => (.response 201 (.category category), w)

/-- Handler `updateCategory` (`PUT /api/categories/:id`). -/
def updateCategory (id : String) (body : Except GoError (Option D)) (w : World) : Outcome × World :=
  match ObjectIDFromHex id with
  | .error _ => (.response 400 (errorMap "Invalid ID"), w)
  | .ok objID =>
    match body with
    | .error _ => (.response 400 (errorMap "Invalid request body"), w)
    | .ok updateData =>
      let update := setDocument updateData
      let filter : D := [("_id", .oid objID)]
      match UpdateOne .categories filter update w with
      | (.error _, w) => (.response 500 (errorMap "Failed to update document"), w)
      | (.ok result, w) => (.response 200 (.updateResult result), w)

/-- Handler `deleteCategory` (`DELETE /api/categories/:id`). -/
def deleteCategory (id : String) (w : World) : Outcome × World :=
  match ObjectIDFromHex id with
  | .error _ => (.response 400 (errorMap "Invalid ID"), w)
  | .ok objID =>
    let filter : D := [("_id", .oid objID)]
    match DeleteOne .categories filter w with
    | (.error _, w) => (.response 500 (errorMap "Failed to delete category"), w)
    | (.ok _, w) => (.response 200 (.map [("success", .bool true)]), w)

/-! ## Animal handlers -/

/-- Handler `getAnimals` (`GET /api/animals`); `cursor.All` fails when the
cursor reports an error. -/
def getAnimals (sortBy orderQ : String) (page limit : Int) (w : World) : Outcome × World :=
  let pipeline := getAnimals_pipeline sortBy orderQ page limit
  match Aggregate .animals pipeline w with
  | (.error _, w) => (.response 500 (errorMap "Failed to fetch animals"), w)
  | (.ok cursor, w) =>
    match cursor.err with
    | some _ => (.response 500 (errorMap "Failed to decode animals"), w)
    | none => (.response 200 (.documents cursor.batch), w)

/-- Handler `getAnimal` (`GET /api/animals/:id`). -/
def getAnimal (id : String) (w : World) : Outcome × World :=
  match ObjectIDFromHex id with
  | .error _ => (.response 400 (errorMap "Invalid ID"), w)
  | .ok objID =>
    let (found, w) := FindOne .animals [("_id", .oid objID)] w
    match found >>= w.decodeAnimal with
    | .error err =>
      if err = .ErrNoDocuments then (.response 404 (errorMap "Animal not found"), w)
      else (.response 500 (errorMap "Failed to retrieve animal"), w)
    | .ok animal => (.response 200 (.animal animal), w)

/-- Handler `createAnimal` (`POST /api/animals`). -/
def createAnimal (body : Except GoError Animal) (w : World) : Outcome × World :=
  match body with
  | .error err => (.err err, w)
  | .ok animal =>
    if animal.AnimalName = "" then
      (.response 400 (errorMap "Animal name is required"), w)
    else
      let (id, w) := NewObjectID w
      let animal := { animal with ID := id }
      match InsertOne .animals animal.toBSON w with
      | (.error err, w) => (.err err, w)
      | (.ok _, w) => (.response 201 (.animal animal), w)

/-- Handler `updateAnimal` (`PUT /api/animals/:id`). -/
def updateAnimal (id : String) (body : Except GoError (Option D)) (w : World) : Outcome × World :=
  match ObjectIDFromHex id with
  | .error _ => (.response 400 (errorMap "Invalid ID"), w)
  | .ok objID =>
    match body with
    | .error _ => (.response 400 (errorMap "Invalid request body"), w)
    | .ok updateData =>
      let update := setDocument updateData
      let filter : D := [("_id", .oid objID)]
      match UpdateOne .animals filter update w with
      | (.error _, w) => (.response 500 (errorMap "Failed to update document"), w)
      | (.ok result, w) => (.response 200 (.updateResult result), w)

/-- Handler `deleteAnimal` (`DELETE /api/animals/:id`). -/
def deleteAnimal (id : String) (w : World) : Outcome × World :=
  match ObjectIDFromHex id with
  | .error _ => (.response 400 (errorMap "Invalid ID"), w)
  | .ok objID =>
    let filter : D := [("_id", .oid objID)]
    match DeleteOne .animals filter w with
    | (.error _, w) => (.response 500 (errorMap "Failed to delete animal"), w)
    | (.ok _, w) => (.response 200 (.map [("success", .bool true)]), w)

/-! ## Sample worlds and inputs -/

/-- The zero value of `Location`. -/
def zeroLocation : Location := ⟨"", ⟨0⟩, ⟨0⟩, (⟨0⟩, ⟨0⟩)⟩

/-- The decoder of the sample stores for species: it reads the three fields
their species documents hold. -/
def sampleDecodeSpecies (d : D) : Except GoError Species :=
  match d.lookup "_id", d.lookup "species_name", d.lookup "category" with
  | some (.oid id), some (.str name), some (.oid category) =>
    .ok ⟨id, name, category, "", zeroLocation⟩
  | _, _, _ => .error (.other "not a species document of the sample store")

/-- The decoder of the sample stores for categories. -/
def sampleDecodeCategory (d : D) : Except GoError Category :=
  match d.lookup "_id", d.lookup "category_name" with
  | some (.oid id), some (.str name) => .ok ⟨id, name⟩
  | _, _ => .error (.other "not a category document of the sample store")

/-- The decoder of the sample stores for animals. -/
def sampleDecodeAnimal (d : D) : Except GoError Animal :=
  match d.lookup "_id", d.lookup "animal_name", d.lookup "species" with
  | some (.oid id), some (.str name), some (.oid species) =>
    .ok ⟨id, name, species, ⟨0⟩, "", zeroLocation⟩
  | _, _, _ => .error (.other "not an animal document of the sample store")

/-- A reachable store with nothing in it. -/
def emptyWorld : World :=
  ⟨[], [], [], none, 0, [], fun _ => ⟨[], none⟩,
   sampleDecodeSpecies, sampleDecodeCategory, sampleDecodeAnimal⟩

/-- A reachable store holding one category, one species and one animal, under
the identifiers 193, 5 and 9. -/
def sampleWorld : World :=
  ⟨[[("_id", .oid ⟨5⟩), ("species_name", .str "Lion"), ("category", .oid ⟨193⟩)]],
   [[("_id", .oid ⟨193⟩), ("category_name", .str "Mammal")]],
   [[("_id", .oid ⟨9⟩), ("animal_name", .str "Leo"), ("species", .oid ⟨5⟩)]],
   none, 0, [], fun _ => ⟨[], none⟩,
   sampleDecodeSpecies, sampleDecodeCategory, sampleDecodeAnimal⟩

/-- The animal the body `{"animal_name": "Leo"}` parses to: no species reference. -/
def leo : Animal := ⟨NilObjectID, "Leo", NilObjectID, ⟨0⟩, "", zeroLocation⟩

/-- The species the body `{"species_name": "Lion", "category_id": "0000000000000000000000c1"}`
parses to. -/
def lion : Species := ⟨NilObjectID, "Lion", ⟨193⟩, "", zeroLocation⟩

/-- The integer a response body reports, if it reports one: the `MatchedCount` of
an update result, or the first integer entry of a map. -/
def Body.reportedCount : Body → Option Int
  | .updateResult r => some r.MatchedCount
  | .map m =>
    m.findSome? fun kv =>
      match kv.2 with
      | .int n => some n
      | .int64 n => some n
      | _ => none
  | _ => none

/-! ## Basic facts -/

theorem wrapInt64_of_range (x : Int) (h0 : -(2 ^ 63) ≤ x) (h1 : x < 2 ^ 63) : wrapInt64 x = x := by
  unfold wrapInt64
  rw [Int.emod_eq_of_lt (by omega) (by omega)]
  omega

theorem getSpecies_log (sortBy orderQ : String) (page limit : Int) (w : World) :
    (getSpecies sortBy orderQ page limit w).2.log
      = w.log ++ [.Find .species [] (getSpecies_findOptions sortBy orderQ page limit)] := by
  unfold getSpecies Find World.record
  cases w.outage <;> simp only []
  split <;> [rfl; (split <;> rfl)]

theorem getCategories_log (sortBy orderQ : String) (page limit : Int) (w : World) :
    (getCategories sortBy orderQ page limit w).2.log
      = w.log ++ [.Find .categories [] (getCategories_findOptions sortBy orderQ page limit)] := by
  unfold getCategories Find World.record
  cases w.outage <;> simp only []
  split <;> [rfl; (split <;> rfl)]

theorem getAnimals_log (sortBy orderQ : String) (page limit : Int) (w : World) :
    (getAnimals sortBy orderQ page limit w).2.log
      = w.log ++ [.Aggregate .animals (getAnimals_pipeline sortBy orderQ page limit)] := by
  unfold getAnimals Aggregate World.record
  cases w.outage <;> simp only []
  split <;> rfl

/-! ## Sorting and pagination of the list handlers -/

/-- C1: `getSpecies` and `getCategories` issue one `Find` whose sort option is
unset when `sort_by` is empty (whatever `order` is) and is otherwise the single
entry `(sort_by, d)` with `d = 1` when `order` is exactly "asc" and `d = -1` for
every other `order`; the field name goes through unchanged. -/
theorem C1_species_categories_sort (sortBy orderQ : String) (page limit : Int) (w : World) :
    (getSpecies sortBy orderQ page limit w).2.log
        = w.log ++ [.Find .species [] (getSpecies_findOptions sortBy orderQ page limit)]
    ∧ (getCategories sortBy orderQ page limit w).2.log
        = w.log ++ [.Find .categories [] (getCategories_findOptions sortBy orderQ page limit)]
    ∧ (getSpecies_findOptions sortBy orderQ page limit).Sort_
        = (if sortBy = "" then none
           else some [(sortBy, Value.int (if orderQ = "asc" then 1 else -1))])
    ∧ (getCategories_findOptions sortBy orderQ page limit).Sort_
        = (if sortBy = "" then none
           else some [(sortBy, Value.int (if orderQ = "asc" then 1 else -1))]) := by
  refine ⟨getSpecies_log _ _ _ _ _, getCategories_log _ _ _ _ _, ?_, ?_⟩
  · unfold getSpecies_findOptions getSpecies_sort Find_ FindOptions.SetSort FindOptions.SetSkip
      FindOptions.SetLimit
    by_cases hs : sortBy = "" <;> by_cases hp : page > 0 ∧ limit > 0 <;>
      by_cases ho : orderQ = "asc" <;> simp [hs, hp, ho]
  · unfold getCategories_findOptions getCategories_sort Find_ FindOptions.SetSort
      FindOptions.SetSkip FindOptions.SetLimit
    by_cases hs : sortBy = "" <;> by_cases hp : page > 0 ∧ limit > 0 <;>
      by_cases ho : orderQ = "asc" <;> simp [hs, hp, ho]

theorem getAnimals_pipeline_eq (sortBy orderQ : String) (page limit : Int) :
    getAnimals_pipeline sortBy orderQ page limit
      = [[("$lookup", Value.doc [
            ("from", .str "species"),
            ("localField", .str "species"),
            ("foreignField", .str "_id"),
            ("as", .str "species")])],
         [("$unwind", Value.doc [
            ("path", .str "$species"),
            ("preserveNullAndEmptyArrays", .bool true)])],
         [("$lookup", Value.doc [
            ("from", .str "categories"),
            ("localField", .str "species.category"),
            ("foreignField", .str "_id"),
            ("as", .str "species.category")])],
         [("$unwind", Value.doc [
            ("path", .str "$species.category"),
            ("preserveNullAndEmptyArrays", .bool true)])]]
        ++ (if sortBy = "" then []
            else [[("$sort", Value.doc [(sortBy, .int (if orderQ = "desc" then -1 else 1))])]])
        ++ (if page > 0 ∧ limit > 0 then
              [[("$skip", Value.int (intMul (intSub page 1) limit))],
               [("$limit", Value.int64 limit)]]
            else []) := by
  unfold getAnimals_pipeline getAnimals_sort getAnimals_skip
  by_cases hs : sortBy = "" <;> by_cases hp : page > 0 ∧ limit > 0 <;>
    by_cases ho : orderQ = "desc" <;> simp [hs, hp, ho]

/-- C2: `getAnimals` builds no `$sort` stage when `sort_by` is empty; otherwise its
sort specification is the single entry `(sort_by, d)` with `d = -1` when `order`
is exactly "desc" and `d = 1` otherwise. With `order` absent and the same
non-empty `sort_by`, the species listing sorts by `-1` and the animal listing
by `1`. -/
theorem C2_animals_sort (sortBy orderQ : String) (page limit : Int) :
    getAnimals_sort sortBy orderQ
        = (if sortBy = "" then []
           else [(sortBy, Value.int (if orderQ = "desc" then -1 else 1))])
    ∧ (getAnimals_pipeline sortBy orderQ page limit).filter
          (fun stage => stage.any (fun kv => kv.1 == "$sort"))
        = (if sortBy = "" then []
           else [[("$sort", Value.doc [(sortBy, .int (if orderQ = "desc" then -1 else 1))])]])
    ∧ (getSpecies_findOptions sortBy "" page limit).Sort_
        = (if sortBy = "" then none else some [(sortBy, Value.int (-1))])
    ∧ getAnimals_sort sortBy ""
        = (if sortBy = "" then [] else [(sortBy, Value.int 1)]) := by
  refine ⟨?_, ?_, ?_, ?_⟩
  · unfold getAnimals_sort
    by_cases hs : sortBy = "" <;> by_cases ho : orderQ = "desc" <;> simp [hs, ho]
  · rw [getAnimals_pipeline_eq]
    by_cases hs : sortBy = "" <;> by_cases hp : page > 0 ∧ limit > 0 <;>
      simp only [hs, hp, if_true, if_false] <;> rfl
  · unfold getSpecies_findOptions getSpecies_sort Find_ FindOptions.SetSort FindOptions.SetSkip
      FindOptions.SetLimit
    by_cases hs : sortBy = "" <;> by_cases hp : page > 0 ∧ limit > 0 <;> simp [hs, hp]
  · unfold getAnimals_sort
    by_cases hs : sortBy = "" <;> simp [hs]

/-- C3: `getSpecies`, `getCategories` and `getAnimals` each issue one query to
the store, and in it a skip and a limit are set if and only if `page > 0` and
`limit > 0`; the skip is then the Go `int` product `(page - 1) * limit` and the
limit is `limit`; otherwise neither is set. Whenever the product is below
`2 ^ 63` the skip is that product itself. -/
theorem C3_pagination (sortBy orderQ : String) (page limit : Int) (w : World) :
    (getSpecies sortBy orderQ page limit w).2.log
        = w.log ++ [.Find .species [] (getSpecies_findOptions sortBy orderQ page limit)]
    ∧ (getCategories sortBy orderQ page limit w).2.log
        = w.log ++ [.Find .categories [] (getCategories_findOptions sortBy orderQ page limit)]
    ∧ (getAnimals sortBy orderQ page limit w).2.log
        = w.log ++ [.Aggregate .animals (getAnimals_pipeline sortBy orderQ page limit)]
    ∧ (getSpecies_findOptions sortBy orderQ page limit).Skip
        = (if page > 0 ∧ limit > 0 then some (intMul (intSub page 1) limit) else none)
    ∧ (getSpecies_findOptions sortBy orderQ page limit).Limit
        = (if page > 0 ∧ limit > 0 then some limit else none)
    ∧ (getCategories_findOptions sortBy orderQ page limit).Skip
        = (if page > 0 ∧ limit > 0 then some (intMul (intSub page 1) limit) else none)
    ∧ (getCategories_findOptions sortBy orderQ page limit).Limit
        = (if page > 0 ∧ limit > 0 then some limit else none)
    ∧ (getAnimals_pipeline sortBy orderQ page limit).filter
          (fun stage => stage.any (fun kv => kv.1 == "$skip" || kv.1 == "$limit"))
        = (if page > 0 ∧ limit > 0 then
             [[("$skip", Value.int (intMul (intSub page 1) limit))],
              [("$limit", Value.int64 limit)]]
           else [])
    ∧ (0 < page → page < 2 ^ 63 → 0 < limit → (page - 1) * limit < 2 ^ 63 →
        intMul (intSub page 1) limit = (page - 1) * limit) := by
  refine ⟨getSpecies_log _ _ _ _ _, getCategories_log _ _ _ _ _, getAnimals_log _ _ _ _ _,
    ?_, ?_, ?_, ?_, ?_, ?_⟩
  · unfold getSpecies_findOptions getSpecies_skip Find_ FindOptions.SetSort FindOptions.SetSkip
      FindOptions.SetLimit
    by_cases hs : sortBy = "" <;> by_cases hp : page > 0 ∧ limit > 0 <;> simp [hs, hp]
  · unfold getSpecies_findOptions getSpecies_skip Find_ FindOptions.SetSort FindOptions.SetSkip
      FindOptions.SetLimit
    by_cases hs : sortBy = "" <;> by_cases hp : page > 0 ∧ limit > 0 <;> simp [hs, hp]
  · unfold getCategories_findOptions getCategories_skip Find_ FindOptions.SetSort
      FindOptions.SetSkip FindOptions.SetLimit
    by_cases hs : sortBy = "" <;> by_cases hp : page > 0 ∧ limit > 0 <;> simp [hs, hp]
  · unfold getCategories_findOptions getCategories_skip Find_ FindOptions.SetSort
      FindOptions.SetSkip FindOptions.SetLimit
    by_cases hs : sortBy = "" <;> by_cases hp : page > 0 ∧ limit > 0 <;> simp [hs, hp]
  · rw [getAnimals_pipeline_eq]
    by_cases hs : sortBy = "" <;> by_cases hp : page > 0 ∧ limit > 0 <;>
      simp only [hs, hp, if_true, if_false] <;> rfl
  · intro h1 h2 h3 h4
    have h5 : 0 ≤ (page - 1) * limit := Int.mul_nonneg (by omega) (by omega)
    unfold intMul intSub
    rw [wrapInt64_of_range (page - 1) (by omega) (by omega)]
    exact wrapInt64_of_range _ (by omega) h4

/-- C3 at `page = 2`, `limit = 5` in the sample store: `getSpecies` issues a
`Find` with skip 5 and limit 5. -/
theorem C3_pagination_witness :
    (getSpecies "" "" 2 5 sampleWorld).2.log
        = [.Find .species [] (getSpecies_findOptions "" "" 2 5)]
    ∧ (getSpecies_findOptions "" "" 2 5).Skip = some 5
    ∧ (getSpecies_findOptions "" "" 2 5).Limit = some 5
    ∧ intMul (intSub 2 1) 5 = (2 - 1) * 5 :=
  ⟨(C3_pagination "" "" 2 5 sampleWorld).1, by decide, by decide,
   (C3_pagination "" "" 2 5 sampleWorld).2.2.2.2.2.2.2.2 (by decide) (by decide) (by decide)
     (by decide)⟩

/-- C4: the pipeline `getAnimals` hands to `Aggregate` is the four join stages
(lookup species, unwind, lookup categories, unwind), then a `$sort` stage
exactly when `sort_by` is non-empty, then `$skip` followed by `$limit` exactly
when `page > 0` and `limit > 0`; it has 4 + (1 if sorted) + (2 if paginated)
stages. -/
theorem C4_animals_pipeline (sortBy orderQ : String) (page limit : Int) (w : World) :
    (getAnimals sortBy orderQ page limit w).2.log
        = w.log ++ [.Aggregate .animals (getAnimals_pipeline sortBy orderQ page limit)]
    ∧ getAnimals_pipeline sortBy orderQ page limit
      = [[("$lookup", Value.doc [
            ("from", .str "species"),
            ("localField", .str "species"),
            ("foreignField", .str "_id"),
            ("as", .str "species")])],
         [("$unwind", Value.doc [
            ("path", .str "$species"),
            ("preserveNullAndEmptyArrays", .bool true)])],
         [("$lookup", Value.doc [
            ("from", .str "categories"),
            ("localField", .str "species.category"),
            ("foreignField", .str "_id"),
            ("as", .str "species.category")])],
         [("$unwind", Value.doc [
            ("path", .str "$species.category"),
            ("preserveNullAndEmptyArrays", .bool true)])]]
        ++ (if sortBy = "" then []
            else [[("$sort", Value.doc [(sortBy, .int (if orderQ = "desc" then -1 else 1))])]])
        ++ (if page > 0 ∧ limit > 0 then
              [[("$skip", Value.int (intMul (intSub page 1) limit))],
               [("$limit", Value.int64 limit)]]
            else [])
    ∧ (getAnimals_pipeline sortBy orderQ page limit).length
        = 4 + (if sortBy = "" then 0 else 1) + (if page > 0 ∧ limit > 0 then 2 else 0) := by
  refine ⟨getAnimals_log _ _ _ _ _, getAnimals_pipeline_eq _ _ _ _, ?_⟩
  rw [getAnimals_pipeline_eq]
  by_cases hs : sortBy = "" <;> by_cases hp : page > 0 ∧ limit > 0 <;> simp [hs, hp]

/-! ## Malformed identifiers and missing names -/

/-- C5: for an identifier string on which `ObjectIDFromHex` fails, each of the
nine by-id handlers responds 400 with the body `{"error": "Invalid ID"}` and
leaves the world as it was (no store operation is issued), for the update
handlers whatever the request body parses to. -/
theorem C5_invalid_id (id : String) (e : GoError) (body : Except GoError (Option D)) (w : World)
    (h : ObjectIDFromHex id = .error e) :
    getSpecie id w = (.response 400 (.map [("error", .str "Invalid ID")]), w)
    ∧ updateSpecie id body w = (.response 400 (.map [("error", .str "Invalid ID")]), w)
    ∧ deleteSpecie id w = (.response 400 (.map [("error", .str "Invalid ID")]), w)
    ∧ getCategory id w = (.response 400 (.map [("error", .str "Invalid ID")]), w)
    ∧ updateCategory id body w = (.response 400 (.map [("error", .str "Invalid ID")]), w)
    ∧ deleteCategory id w = (.response 400 (.map [("error", .str "Invalid ID")]), w)
    ∧ getAnimal id w = (.response 400 (.map [("error", .str "Invalid ID")]), w)
    ∧ updateAnimal id body w = (.response 400 (.map [("error", .str "Invalid ID")]), w)
    ∧ deleteAnimal id w = (.response 400 (.map [("error", .str "Invalid ID")]), w) := by
  refine ⟨?_, ?_, ?_, ?_, ?_, ?_, ?_, ?_, ?_⟩
  · unfold getSpecie; rw [h]; rfl
  · unfold updateSpecie; rw [h]; rfl
  · unfold deleteSpecie; rw [h]; rfl
  · unfold getCategory; rw [h]; rfl
  · unfold updateCategory; rw [h]; rfl
  · unfold deleteCategory; rw [h]; rfl
  · unfold getAnimal; rw [h]; rfl
  · unfold updateAnimal; rw [h]; rfl
  · unfold deleteAnimal; rw [h]; rfl

/-- C5 at the identifier "not-an-id" with an unparsable update body. -/
theorem C5_invalid_id_witness :
    ObjectIDFromHex "not-an-id" = .error (.other "the provided hex string is not a valid ObjectID")
    ∧ updateAnimal "not-an-id" (.error (.other "unexpected end of JSON input")) emptyWorld
        = (.response 400 (.map [("error", .str "Invalid ID")]), emptyWorld) :=
  ⟨rfl, (C5_invalid_id "not-an-id" _ (.error (.other "unexpected end of JSON input")) emptyWorld
    rfl).2.2.2.2.2.2.2.1⟩

/-- C6: a creation payload that parsed and whose name is empty makes
`createCategory`, `createSpecies` and `createAnimal` respond 400 and leave the
world as it was: nothing inserted, no operation issued, no identifier
generated. -/
theorem C6_empty_name (c : Category) (s : Species) (a : Animal) (w : World)
    (hc : c.CategoryName = "") (hs : s.SpeciesName = "") (ha : a.AnimalName = "") :
    createCategory (.ok c) w
        = (.response 400 (.map [("error", .str "Category name is required")]), w)
    ∧ createSpecies (.ok s) w
        = (.response 400 (.map [("error", .str "Species name is required")]), w)
    ∧ createAnimal (.ok a) w
        = (.response 400 (.map [("error", .str "Animal name is required")]), w) := by
  refine ⟨?_, ?_, ?_⟩
  · unfold createCategory; simp only [hc, if_true]; rfl
  · unfold createSpecies; simp only [hs, if_true]; rfl
  · unfold createAnimal; simp only [ha, if_true]; rfl

/-- C6 at payloads with an empty name and a present reference. -/
theorem C6_empty_name_witness :
    createCategory (.ok ⟨NilObjectID, ""⟩) emptyWorld
        = (.response 400 (.map [("error", .str "Category name is required")]), emptyWorld)
    ∧ createSpecies (.ok { lion with SpeciesName := "" }) emptyWorld
        = (.response 400 (.map [("error", .str "Species name is required")]), emptyWorld)
    ∧ createAnimal (.ok { leo with AnimalName := "", Species := ⟨7⟩ }) emptyWorld
        = (.response 400 (.map [("error", .str "Animal name is required")]), emptyWorld) :=
  C6_empty_name ⟨NilObjectID, ""⟩ { lion with SpeciesName := "" }
    { leo with AnimalName := "", Species := ⟨7⟩ } emptyWorld rfl rfl rfl


theorem eqv_oid (o : ObjectID) (v : Value) : Value.eqv (.oid o) v = true ↔ v = .oid o := by
  cases v <;> simp [Value.eqv]
  exact eq_comm

theorem matchesFilter_id (o : ObjectID) (d : D) :
    matchesFilter [("_id", .oid o)] d = true ↔ d.lookup "_id" = some (.oid o) := by
  unfold matchesFilter fieldMatches
  cases h : d.lookup "_id" with
  | none => simp [h, Value.eqv]
  | some v => simp [h, eqv_oid]

theorem find_id_none (o : ObjectID) (l : List D)
    (h : ∀ d ∈ l, d.lookup "_id" ≠ some (.oid o)) :
    l.find? (matchesFilter [("_id", .oid o)]) = none := by
  rw [List.find?_eq_none]
  intro d hd hm
  exact h d hd ((matchesFilter_id o d).1 hm)

theorem FindOne_no_match (c : Coll) (o : ObjectID) (w : World) (hup : w.outage = none)
    (h : ∀ d ∈ w.coll c, d.lookup "_id" ≠ some (.oid o)) :
    FindOne c [("_id", .oid o)] w
      = (.error .ErrNoDocuments, w.record (.FindOne c [("_id", .oid o)])) := by
  have h2 : ((w.record (.FindOne c [("_id", .oid o)])).coll c).find?
      (matchesFilter [("_id", .oid o)]) = none := by
    apply find_id_none
    cases c <;> exact h
  unfold FindOne
  simp only [World.record, hup] at h2 ⊢
  rw [h2]

theorem UpdateOne_no_match (c : Coll) (o : ObjectID) (fields : D) (w : World)
    (hup : w.outage = none) (h : ∀ d ∈ w.coll c, d.lookup "_id" ≠ some (.oid o)) :
    UpdateOne c [("_id", .oid o)] [("$set", .doc fields)] w
      = (.ok ⟨0, 0, 0, none⟩,
         w.record (.UpdateOne c [("_id", .oid o)] [("$set", .doc fields)])) := by
  have h2 : ((w.record (.UpdateOne c [("_id", .oid o)] [("$set", .doc fields)])).coll c).find?
      (matchesFilter [("_id", .oid o)]) = none := by
    apply find_id_none
    cases c <;> exact h
  unfold UpdateOne
  simp only [World.record, hup] at h2 ⊢
  rw [h2]

theorem DeleteOne_no_match (c : Coll) (o : ObjectID) (w : World) (hup : w.outage = none)
    (h : ∀ d ∈ w.coll c, d.lookup "_id" ≠ some (.oid o)) :
    DeleteOne c [("_id", .oid o)] w
      = (.ok ⟨0⟩, w.record (.DeleteOne c [("_id", .oid o)])) := by
  have h2 : ((w.record (.DeleteOne c [("_id", .oid o)])).coll c).find?
      (matchesFilter [("_id", .oid o)]) = none := by
    apply find_id_none
    cases c <;> exact h
  unfold DeleteOne
  simp only [World.record, hup] at h2 ⊢
  rw [h2]

/-! ## Identifiers that match no record -/

/-- C7, as the claim states it, fails for delete-by-id: on a well-formed
identifier that matches no record `deleteSpecie` responds 200 with the body
`{"success": true}`, which reports no count at all, while the store reported
zero deletions to the handler; the response is the same one a delete that
removed a record gets. -/
theorem C7_delete_reports_no_count :
    ObjectIDFromHex "000000000000000000000001" = .ok ⟨1⟩
    ∧ (DeleteOne .species [("_id", .oid ⟨1⟩)] emptyWorld).1 = .ok ⟨0⟩
    ∧ (deleteSpecie "000000000000000000000001" emptyWorld).1
        = .response 200 (.map [("success", .bool true)])
    ∧ (¬ ∃ status body, (deleteSpecie "000000000000000000000001" emptyWorld).1
          = .response status body ∧ body.reportedCount = some 0)
    ∧ (DeleteOne .species [("_id", .oid ⟨5⟩)] sampleWorld).1 = .ok ⟨1⟩
    ∧ (deleteSpecie "000000000000000000000005" sampleWorld).1
        = (deleteSpecie "000000000000000000000001" sampleWorld).1 := by
  refine ⟨rfl, rfl, rfl, ?_, rfl, rfl⟩
  rintro ⟨status, body, h1, h2⟩
  have h3 : (deleteSpecie "000000000000000000000001" emptyWorld).1
      = .response 200 (.map [("success", .bool true)]) := rfl
  rw [h3] at h1
  injection h1 with _ hb
  subst hb
  simp [Body.reportedCount] at h2

/-- C7, amended: for a well-formed identifier that matches no record of the
handler's own collection in a reachable store, get-by-id responds 404;
update-by-id (body a JSON object) responds 200 with the store's update result,
whose counts are zero; delete-by-id responds 200 with `{"success": true}`, the
zero deletion count staying with the handler. Each issues its one store
operation and leaves the collections unchanged. Records of the other
collections play no part. -/
theorem C7_no_match (id : String) (objID : ObjectID) (fields : D) (w : World)
    (hid : ObjectIDFromHex id = .ok objID) (hup : w.outage = none) :
    ((∀ d ∈ w.species, d.lookup "_id" ≠ some (.oid objID)) →
        getSpecie id w = (.response 404 (.map [("error", .str "Species not found")]),
            w.record (.FindOne .species [("_id", .oid objID)]))
        ∧ updateSpecie id (.ok (some fields)) w
            = (.response 200 (.updateResult ⟨0, 0, 0, none⟩),
               w.record (.UpdateOne .species [("_id", .oid objID)] [("$set", .doc fields)]))
        ∧ deleteSpecie id w = (.response 200 (.map [("success", .bool true)]),
            w.record (.DeleteOne .species [("_id", .oid objID)]))
        ∧ (DeleteOne .species [("_id", .oid objID)] w).1 = .ok ⟨0⟩)
    ∧ ((∀ d ∈ w.categories, d.lookup "_id" ≠ some (.oid objID)) →
        getCategory id w = (.response 404 (.map [("error", .str "Category not found")]),
            w.record (.FindOne .categories [("_id", .oid objID)]))
        ∧ updateCategory id (.ok (some fields)) w
            = (.response 200 (.updateResult ⟨0, 0, 0, none⟩),
               w.record (.UpdateOne .categories [("_id", .oid objID)] [("$set", .doc fields)]))
        ∧ deleteCategory id w = (.response 200 (.map [("success", .bool true)]),
            w.record (.DeleteOne .categories [("_id", .oid objID)]))
        ∧ (DeleteOne .categories [("_id", .oid objID)] w).1 = .ok ⟨0⟩)
    ∧ ((∀ d ∈ w.animals, d.lookup "_id" ≠ some (.oid objID)) →
        getAnimal id w = (.response 404 (.map [("error", .str "Animal not found")]),
            w.record (.FindOne .animals [("_id", .oid objID)]))
        ∧ updateAnimal id (.ok (some fields)) w
            = (.response 200 (.updateResult ⟨0, 0, 0, none⟩),
               w.record (.UpdateOne .animals [("_id", .oid objID)] [("$set", .doc fields)]))
        ∧ deleteAnimal id w = (.response 200 (.map [("success", .bool true)]),
            w.record (.DeleteOne .animals [("_id", .oid objID)]))
        ∧ (DeleteOne .animals [("_id", .oid objID)] w).1 = .ok ⟨0⟩)
    ∧ ∀ op, (w.record op).species = w.species ∧ (w.record op).categories = w.categories
        ∧ (w.record op).animals = w.animals := by
  refine ⟨fun hs => ⟨?_, ?_, ?_, ?_⟩, fun hc => ⟨?_, ?_, ?_, ?_⟩, fun ha => ⟨?_, ?_, ?_, ?_⟩,
    fun _ => ⟨rfl, rfl, rfl⟩⟩
  · unfold getSpecie; rw [hid]; simp only []; rw [FindOne_no_match .species objID w hup hs]; rfl
  · unfold updateSpecie setDocument; rw [hid]; simp only []
    rw [UpdateOne_no_match .species objID fields w hup hs]
  · unfold deleteSpecie; rw [hid]; simp only []
    rw [DeleteOne_no_match .species objID w hup hs]
  · rw [DeleteOne_no_match .species objID w hup hs]
  · unfold getCategory; rw [hid]; simp only []
    rw [FindOne_no_match .categories objID w hup hc]; rfl
  · unfold updateCategory setDocument; rw [hid]; simp only []
    rw [UpdateOne_no_match .categories objID fields w hup hc]
  · unfold deleteCategory; rw [hid]; simp only []
    rw [DeleteOne_no_match .categories objID w hup hc]
  · rw [DeleteOne_no_match .categories objID w hup hc]
  · unfold getAnimal; rw [hid]; simp only []; rw [FindOne_no_match .animals objID w hup ha]; rfl
  · unfold updateAnimal setDocument; rw [hid]; simp only []
    rw [UpdateOne_no_match .animals objID fields w hup ha]
  · unfold deleteAnimal; rw [hid]; simp only []
    rw [DeleteOne_no_match .animals objID w hup ha]
  · rw [DeleteOne_no_match .animals objID w hup ha]

theorem record_coll (w : World) (op : StoreOp) (c : Coll) : (w.record op).coll c = w.coll c := by
  cases c <;> rfl

theorem setColl_log (w : World) (c : Coll) (docs : List D) : (w.setColl c docs).log = w.log := by
  cases c <;> rfl

theorem InsertOne_of_id (c : Coll) (document : D) (v : Value) (w : World)
    (hid : document.lookup "_id" = some v) :
    InsertOne c document w
      = match w.outage with
        | some e => (.error e, w.record (.InsertOne c document))
        | none =>
          if (w.coll c).any (sameID document) then
            (.error (.other "E11000 duplicate key error"), w.record (.InsertOne c document))
          else (.ok (), (w.record (.InsertOne c document)).setColl c (w.coll c ++ [document])) := by
  unfold InsertOne
  simp only [hid, record_coll]
  cases h : w.outage <;> simp [World.record, h]

theorem InsertOne_log (c : Coll) (document : D) (v : Value) (w : World)
    (hid : document.lookup "_id" = some v) :
    (InsertOne c document w).2.log = w.log ++ [.InsertOne c document] := by
  rw [InsertOne_of_id c document v w hid]
  cases w.outage with
  | some e => rfl
  | none =>
    simp only []
    split
    · rfl
    · rw [setColl_log]; rfl

theorem sameID_oid (document d : D) (o : ObjectID) (hid : document.lookup "_id" = some (.oid o)) :
    sameID document d = true ↔ d.lookup "_id" = some (.oid o) := by
  unfold sameID
  rw [hid]
  cases h : d.lookup "_id" with
  | none => simp
  | some y => simp [eqv_oid]

theorem InsertOne_fresh (c : Coll) (document : D) (o : ObjectID) (w : World)
    (hid : document.lookup "_id" = some (.oid o)) (hup : w.outage = none)
    (hfresh : ∀ d ∈ w.coll c, d.lookup "_id" ≠ some (.oid o)) :
    InsertOne c document w
      = (.ok (), (w.record (.InsertOne c document)).setColl c (w.coll c ++ [document])) := by
  rw [InsertOne_of_id c document (.oid o) w hid, hup]
  have h : (w.coll c).any (sameID document) = false := by
    rw [List.any_eq_false]
    intro d hd hs
    exact hfresh d hd ((sameID_oid document d o hid).1 hs)
  simp [h]

theorem Animal_toBSON_id (a : Animal) : a.toBSON.lookup "_id" = some (.oid a.ID) := by
  unfold Animal.toBSON
  simp [List.lookup]

theorem createAnimal_insert (a : Animal) (w : World) (hname : a.AnimalName ≠ "") :
    createAnimal (.ok a) w
      = match InsertOne .animals ({ a with ID := (NewObjectID w).1 }).toBSON (NewObjectID w).2 with
        | (.error err, w') => (.err err, w')
        | (.ok _, w') => (.response 201 (.animal { a with ID := (NewObjectID w).1 }), w') := by
  unfold createAnimal
  simp [hname]

/-- C7 (amended) in the sample store, whose records are under 5 (species), 193
(category) and 9 (animal): the identifier 5 matches no animal and no category,
the identifier 1 no species. -/
theorem C7_no_match_witness :
    ObjectIDFromHex "000000000000000000000005" = .ok ⟨5⟩
    ∧ ObjectIDFromHex "000000000000000000000001" = .ok ⟨1⟩
    ∧ sampleWorld.outage = none
    ∧ getAnimal "000000000000000000000005" sampleWorld
        = (.response 404 (.map [("error", .str "Animal not found")]),
           sampleWorld.record (.FindOne .animals [("_id", .oid ⟨5⟩)]))
    ∧ updateCategory "000000000000000000000005" (.ok (some [("category_name", .str "Bird")]))
          sampleWorld
        = (.response 200 (.updateResult ⟨0, 0, 0, none⟩),
           sampleWorld.record (.UpdateOne .categories [("_id", .oid ⟨5⟩)]
             [("$set", .doc [("category_name", .str "Bird")])]))
    ∧ deleteSpecie "000000000000000000000001" sampleWorld
        = (.response 200 (.map [("success", .bool true)]),
           sampleWorld.record (.DeleteOne .species [("_id", .oid ⟨1⟩)])) :=
  have h5 := C7_no_match "000000000000000000000005" ⟨5⟩ [("category_name", .str "Bird")]
    sampleWorld rfl rfl
  have h1 := C7_no_match "000000000000000000000001" ⟨1⟩ [] sampleWorld rfl rfl
  ⟨rfl, rfl, rfl,
   (h5.2.2.1 (by intro d hd; simp [sampleWorld] at hd; subst hd; simp [List.lookup])).1,
   (h5.2.1 (by intro d hd; simp [sampleWorld] at hd; subst hd; simp [List.lookup])).2.1,
   (h1.1 (by intro d hd; simp [sampleWorld] at hd; subst hd; simp [List.lookup])).2.2.1⟩

/-! ## Request bodies and required references at creation -/

/-- C8: on a request body that fails to parse, `createSpecies` and `createAnimal`
return the parser's error to the framework and write no response of their own
(so not a 400 with an error body), whereas `createCategory` and the three update
handlers (here at a well-formed identifier) respond 400 with
`{"error": "Invalid request body"}`; none issues a store operation. -/
theorem C8_unparsable_body (e : GoError) (w : World) :
    createSpecies (.error e) w = (.err e, w)
    ∧ createAnimal (.error e) w = (.err e, w)
    ∧ (∀ status body, (createSpecies (.error e) w).1 ≠ .response status body)
    ∧ (∀ status body, (createAnimal (.error e) w).1 ≠ .response status body)
    ∧ createCategory (.error e) w
        = (.response 400 (.map [("error", .str "Invalid request body")]), w)
    ∧ updateSpecie "000000000000000000000001" (.error e) w
        = (.response 400 (.map [("error", .str "Invalid request body")]), w)
    ∧ updateCategory "000000000000000000000001" (.error e) w
        = (.response 400 (.map [("error", .str "Invalid request body")]), w)
    ∧ updateAnimal "000000000000000000000001" (.error e) w
        = (.response 400 (.map [("error", .str "Invalid request body")]), w) := by
  refine ⟨rfl, rfl, ?_, ?_, rfl, rfl, rfl, rfl⟩
  · intro status body h
    have h2 : (createSpecies (.error e) w).1 = .err e := rfl
    rw [h2] at h
    cases h
  · intro status body h
    have h2 : (createAnimal (.error e) w).1 = .err e := rfl
    rw [h2] at h
    cases h

/-- C9: `createAnimal` makes no check of the species reference: for a payload
with a non-empty name and the zero identifier as species it never responds 400;
it generates an identifier and issues the insert, and when the store is
reachable and the identifier unused it responds 201 and the record, species
reference zero, is in the collection. -/
theorem C9_createAnimal_nil_species (a : Animal) (w : World) (hname : a.AnimalName ≠ "")
    (hnil : a.Species = NilObjectID) :
    (∀ body, (createAnimal (.ok a) w).1 ≠ .response 400 body)
    ∧ (createAnimal (.ok a) w).2.log
        = w.log ++ [.InsertOne .animals ({ a with ID := (NewObjectID w).1 }).toBSON]
    ∧ (w.outage = none →
        (∀ d ∈ w.animals, d.lookup "_id" ≠ some (.oid (NewObjectID w).1)) →
        (createAnimal (.ok a) w).1
            = .response 201 (.animal { a with ID := (NewObjectID w).1, Species := NilObjectID })
        ∧ (createAnimal (.ok a) w).2.animals
            = w.animals ++ [({ a with ID := (NewObjectID w).1 }).toBSON]) := by
  have hid := Animal_toBSON_id { a with ID := (NewObjectID w).1 }
  have hlog := InsertOne_log .animals _ _ (NewObjectID w).2 hid
  rw [createAnimal_insert a w hname]
  refine ⟨?_, ?_, ?_⟩
  · intro body
    split
    · intro h; cases h
    · intro h; cases h
  · split
    · next err w' heq => rw [heq] at hlog; exact hlog
    · next u w' heq => rw [heq] at hlog; exact hlog
  · intro hup hfresh
    rw [InsertOne_fresh .animals _ (NewObjectID w).1 (NewObjectID w).2 hid hup hfresh]
    rw [← hnil]
    exact ⟨rfl, rfl⟩

/-- C9 at the animal `leo` (name "Leo", no species reference) in the empty store:
the response is 201 and the record is stored. -/
theorem C9_createAnimal_nil_species_witness :
    leo.AnimalName ≠ "" ∧ leo.Species = NilObjectID
    ∧ (createAnimal (.ok leo) emptyWorld).1
        = .response 201 (.animal { leo with ID := ⟨1⟩, Species := NilObjectID })
    ∧ (createAnimal (.ok leo) emptyWorld).2.animals = [({ leo with ID := ⟨1⟩ }).toBSON] :=
  ⟨by decide, rfl,
   (C9_createAnimal_nil_species leo emptyWorld (by decide) rfl).2.2 rfl
     (fun _ hd => absurd hd (List.not_mem_nil _))⟩

theorem wrapInt64_lt (x : Int) : wrapInt64 x < 2 ^ 63 := by
  unfold wrapInt64
  have h := Int.emod_lt_of_pos (x + 2 ^ 63) (show (0 : Int) < 2 ^ 64 by decide)
  omega

/-- C11, as the claim states it, fails: `page = 2 ^ 62 + 1` and `limit = 2` are
positive Go ints whose skip is `-(2 ^ 63)`, negative, in all three list
handlers; with `limit = 4` the skip wraps to 0, while the products are
`2 ^ 63` and `2 ^ 64`. -/
theorem C11_skip_wraps :
    (0 : Int) < 2 ^ 62 + 1 ∧ (2 ^ 62 + 1 : Int) < 2 ^ 63
    ∧ getSpecies_skip (2 ^ 62 + 1) 2 = -(2 ^ 63)
    ∧ getCategories_skip (2 ^ 62 + 1) 2 = -(2 ^ 63)
    ∧ getAnimals_skip (2 ^ 62 + 1) 2 = -(2 ^ 63)
    ∧ (getSpecies_findOptions "" "" (2 ^ 62 + 1) 2).Skip = some (-(2 ^ 63))
    ∧ (getAnimals_pipeline "" "" (2 ^ 62 + 1) 2).filter
          (fun stage => stage.any (fun kv => kv.1 == "$skip"))
        = [[("$skip", Value.int (-(2 ^ 63)))]]
    ∧ getSpecies_skip (2 ^ 62 + 1) 2 < 0
    ∧ getSpecies_skip (2 ^ 62 + 1) 2 ≠ (2 ^ 62 + 1 - 1) * 2
    ∧ getSpecies_skip (2 ^ 62 + 1) 4 = 0
    ∧ getSpecies_skip (2 ^ 62 + 1) 4 ≠ (2 ^ 62 + 1 - 1) * 4 := by
  refine ⟨by decide, by decide, by decide, by decide, by decide, by decide, ?_, by decide,
    by decide, by decide, by decide⟩
  rw [getAnimals_pipeline_eq]
  have h : intMul (intSub (2 ^ 62 + 1) 1) 2 = -(2 ^ 63) := by decide
  rw [h]
  rfl

/-- C11, amended: for Go ints `page > 0` and `limit > 0` whose product
`(page - 1) * limit` is below `2 ^ 63`, the skip the three list handlers
compute is non-negative and is that product, and it is what `Find` receives
as skip; when the product is `2 ^ 63` or more the computed skip differs from
it. -/
theorem C11_skip_exact (sortBy orderQ : String) (page limit : Int)
    (hp : 0 < page) (hp2 : page < 2 ^ 63) (hl : 0 < limit) (hl2 : limit < 2 ^ 63) :
    ((page - 1) * limit < 2 ^ 63 →
        getSpecies_skip page limit = (page - 1) * limit
        ∧ getCategories_skip page limit = (page - 1) * limit
        ∧ getAnimals_skip page limit = (page - 1) * limit
        ∧ 0 ≤ getSpecies_skip page limit
        ∧ 0 ≤ getCategories_skip page limit
        ∧ 0 ≤ getAnimals_skip page limit
        ∧ (getSpecies_findOptions sortBy orderQ page limit).Skip = some ((page - 1) * limit)
        ∧ (getCategories_findOptions sortBy orderQ page limit).Skip = some ((page - 1) * limit))
    ∧ (2 ^ 63 ≤ (page - 1) * limit →
        getSpecies_skip page limit ≠ (page - 1) * limit
        ∧ getCategories_skip page limit ≠ (page - 1) * limit
        ∧ getAnimals_skip page limit ≠ (page - 1) * limit) := by
  have hsub : intSub page 1 = page - 1 := wrapInt64_of_range _ (by omega) (by omega)
  have hs : getSpecies_skip page limit = wrapInt64 ((page - 1) * limit) := by
    unfold getSpecies_skip intMul
    simp [hp, hl, hsub]
  have hc : getCategories_skip page limit = wrapInt64 ((page - 1) * limit) := by
    unfold getCategories_skip intMul
    simp [hp, hl, hsub]
  have ha : getAnimals_skip page limit = wrapInt64 ((page - 1) * limit) := by
    unfold getAnimals_skip intMul
    simp [hp, hl, hsub]
  have hnn : 0 ≤ (page - 1) * limit := Int.mul_nonneg (by omega) (by omega)
  refine ⟨?_, ?_⟩
  · intro hlt
    have hw : wrapInt64 ((page - 1) * limit) = (page - 1) * limit :=
      wrapInt64_of_range _ (by omega) hlt
    refine ⟨by rw [hs, hw], by rw [hc, hw], by rw [ha, hw], by rw [hs, hw]; exact hnn,
      by rw [hc, hw]; exact hnn, by rw [ha, hw]; exact hnn, ?_, ?_⟩
    · rw [← hw, ← hs]
      unfold getSpecies_findOptions Find_ FindOptions.SetSort FindOptions.SetSkip
        FindOptions.SetLimit
      by_cases hsb : sortBy = "" <;> simp [hsb, hp, hl]
    · rw [← hw, ← hc]
      unfold getCategories_findOptions Find_ FindOptions.SetSort FindOptions.SetSkip
        FindOptions.SetLimit
      by_cases hsb : sortBy = "" <;> simp [hsb, hp, hl]
  · intro hge
    have hw := wrapInt64_lt ((page - 1) * limit)
    refine ⟨?_, ?_, ?_⟩
    · rw [hs]; omega
    · rw [hc]; omega
    · rw [ha]; omega

/-- C11 (amended) at `page = 3`, `limit = 10`: the skip is 20. -/
theorem C11_skip_exact_witness :
    (0 : Int) < 3 ∧ (3 : Int) < 2 ^ 63 ∧ (0 : Int) < 10 ∧ (10 : Int) < 2 ^ 63
    ∧ ((3 : Int) - 1) * 10 < 2 ^ 63
    ∧ getAnimals_skip 3 10 = (3 - 1) * 10
    ∧ (getSpecies_findOptions "name" "asc" 3 10).Skip = some ((3 - 1) * 10) :=
  have h := (C11_skip_exact "name" "asc" 3 10 (by decide) (by decide) (by decide)
    (by decide)).1 (by decide)
  ⟨by decide, by decide, by decide, by decide, by decide, h.2.2.1, h.2.2.2.2.2.2.1⟩

end GoApi
